import Mathlib

/-!
Verification development for the Ghost EDR enforcer's policy evaluation and
enforcement-dispatch pipeline (`ghost_enforcer`).

The Lean definitions below are a shallow embedding of the Python sources:

* `fnmatch` embeds the shell-glob matching of Python's `fnmatch.fnmatch`
  (POSIX case-sensitive semantics: `*`, `?`, `[seq]`, `[!seq]`, with an
  unterminated `[` treated as a literal), which `policy_engine.py` uses for
  all pattern checks.
* `Priority`, `PRIORITY_ORDER`, `ActionType`, `PolicyRule`, `EnforcerConfig`
  embed `config.py`.
* `FalcoAlert` embeds the alert dataclass of `alert_parser.py` (the fields the
  policy pipeline reads; the wall-clock timestamp and the raw extension map
  are irrelevant to the pipeline and omitted).
* `isExcluded`, `findMatchingPolicy`, `matchesPolicy`, `checkCooldown`,
  `executeAction`, `processAlert` embed the methods of `PolicyEngine` in
  `policy_engine.py`.  Python's early-`return False` chains are compiled to
  conjunctions of per-block conditions; Python truthiness of optional strings
  and lists is made explicit (`pyStr`, `List.isEmpty`).  The float clock of
  `time.time()` is modelled by exact integer time; the in-memory dicts
  (cooldowns, per-kind executed counters) are modelled by insertion-ordered
  association lists with the same get-default/set semantics.
* A handler invocation (`handler.execute`, an async call that returns a
  boolean or raises) is modelled by an oracle of type
  `ActionType → Option (Except String Bool)`: `none` means no handler is
  registered for the kind, `some (Except.ok b)` a normal return, and
  `some (Except.error e)` an exception raised by the handler.
* `disconnectNetwork` and `quarantineExecute` embed
  `DockerDesktopRuntime.disconnect_network` (`runtime/docker_desktop.py`) and
  `QuarantineAction.execute` (`actions/quarantine.py`); the Docker daemon is
  modelled by the container table (container id to attached network names)
  plus an oracle saying whether detaching a given network succeeds or raises
  an API error (in docker-py, `NotFound` is a subclass of `APIError`, so the
  inner `except APIError` catches both).
-/

namespace GhostEDR

/-! ## Python string helpers -/

/-- ASCII lowercasing of one character, as Python's `str.lower` acts on the
ASCII range (all enum values compared against are ASCII). -/
def lowerChar (c : Char) : Char :=
  if 'A' ≤ c && c ≤ 'Z' then Char.ofNat (c.toNat + 32) else c

/-- Embedding of Python's `str.lower()` on the strings the engine compares. -/
def pyLower (s : String) : String := String.mk (s.data.map lowerChar)

/-- Python truthiness of an optional string: `None` and `""` are falsy. -/
def pyStr (s : Option String) : Bool := !(s.getD ("")).isEmpty

/-- The string carried by an optional string (`""` when absent); only read
under a `pyStr` guard, where it is the actual non-empty value. -/
def strOpt (s : Option String) : String := s.getD ("")

/-! ## Shell-glob matching (embedding of `fnmatch.fnmatch`) -/

/-- One token of a compiled glob pattern, mirroring what
`fnmatch.translate` produces: a literal character, `*`, `?`, or a
(possibly negated) character class. -/
inductive GlobTok where
  | lit (c : Char)
  | star
  | anyChar
  | cls (negated : Bool) (members : List Char)
deriving DecidableEq

/-- Scan forward to the closing `]` of a character class; returns the class
body and the remainder of the pattern, or `none` when the class is
unterminated. -/
def scanClose : List Char → Option (List Char × List Char)
  | [] => none
  | ']' :: rest => some ([], rest)
  | c :: rest =>
    match scanClose rest with
    | some (content, rem) => some (c :: content, rem)
    | none => none

/-- Tokenize a glob pattern, following `fnmatch.translate`: after `[` an
optional leading `!` negates, a `]` immediately after that is a literal
member, and an unterminated class degrades to a literal `[`.  The fuel is
the pattern length; every step consumes at least one character. -/
def parseGlobAux : Nat → List Char → List GlobTok
  | 0, _ => []
  | _, [] => []
  | fuel + 1, '*' :: rest => GlobTok.star :: parseGlobAux fuel rest
  | fuel + 1, '?' :: rest => GlobTok.anyChar :: parseGlobAux fuel rest
  | fuel + 1, '[' :: rest =>
    let split : Bool × List Char :=
      match rest with
      | '!' :: t => (true, t)
      | _ => (false, rest)
    let scanned : Option (List Char × List Char) :=
      match split.2 with
      | ']' :: t =>
        match scanClose t with
        | some (content, rem) => some (']' :: content, rem)
        | none => none
      | _ => scanClose split.2
    match scanned with
    | some (content, rem) => GlobTok.cls split.1 content :: parseGlobAux fuel rem
    | none => GlobTok.lit '[' :: parseGlobAux fuel rest
  | fuel + 1, c :: rest => GlobTok.lit c :: parseGlobAux fuel rest

/-- Membership of a character in a class body, with `a-b` ranges as in the
regular expression `fnmatch.translate` emits (a `-` at the start or end of
the body is a literal). -/
def inClass : List Char → Char → Bool
  | a :: '-' :: b :: rest, c => (a ≤ c && c ≤ b) || inClass rest c
  | a :: rest, c => a == c || inClass rest c
  | [], _ => false

/-- Match a token list against a character list.  The fuel is
`tokens + name + 1`; every recursive call strictly decreases the combined
length, so the fuel never runs out on the initial call. -/
def matchToksAux : Nat → List GlobTok → List Char → Bool
  | 0, _, _ => false
  | _ + 1, [], [] => true
  | _ + 1, [], _ :: _ => false
  | fuel + 1, GlobTok.star :: ts, s =>
    matchToksAux fuel ts s ||
      (match s with
       | [] => false
       | _ :: tail => matchToksAux fuel (GlobTok.star :: ts) tail)
  | fuel + 1, GlobTok.anyChar :: ts, _ :: s => matchToksAux fuel ts s
  | _ + 1, GlobTok.anyChar :: _, [] => false
  | fuel + 1, GlobTok.lit a :: ts, c :: s => a == c && matchToksAux fuel ts s
  | _ + 1, GlobTok.lit _ :: _, [] => false
  | fuel + 1, GlobTok.cls neg members :: ts, c :: s =>
    (inClass members c != neg) && matchToksAux fuel ts s
  | _ + 1, GlobTok.cls _ _ :: _, [] => false

/-- Embedding of `fnmatch.fnmatch(name, pattern)` (POSIX: `normcase` is the
identity, so matching is case-sensitive). -/
def fnmatch (name pattern : String) : Bool :=
  let toks := parseGlobAux pattern.data.length pattern.data
  matchToksAux (toks.length + name.data.length + 1) toks name.data

/-- Python's `any(fnmatch.fnmatch(name, pattern) for pattern in patterns)`. -/
def anyFnmatch (name : String) (patterns : List String) : Bool :=
  patterns.any (fun pattern => fnmatch name pattern)

/-! ## `config.py`: enums, priority order, rules, configuration -/

/-- Embedding of `ActionType` in `config.py`: the enforcement action kinds
the configuration declares.  The current build declares exactly these two
members. -/
inductive ActionType where
  | alert
  | webhook
deriving DecidableEq

/-- The string value of an `ActionType` member. -/
def ActionType.value : ActionType → String
  | ActionType.alert => "alert"
  | ActionType.webhook => "webhook"

/-- Embedding of the Python enum lookup `ActionType(s)`: `none` models the
`ValueError` raised when `s` is not the value of any declared member. -/
def ActionType.ofString (s : String) : Option ActionType :=
  if s = "alert" then some ActionType.alert
  else if s = "webhook" then some ActionType.webhook
  else none

/-- Embedding of `Priority` in `config.py` (Falco priorities). -/
inductive Priority where
  | emergency
  | alert
  | critical
  | error
  | warning
  | notice
  | informational
  | debug
deriving DecidableEq

/-- Embedding of the Python enum lookup `Priority(s)`: `none` models the
`ValueError` raised when `s` is not the value of any declared member. -/
def Priority.ofString (s : String) : Option Priority :=
  if s = "emergency" then some Priority.emergency
  else if s = "alert" then some Priority.alert
  else if s = "critical" then some Priority.critical
  else if s = "error" then some Priority.error
  else if s = "warning" then some Priority.warning
  else if s = "notice" then some Priority.notice
  else if s = "informational" then some Priority.informational
  else if s = "debug" then some Priority.debug
  else none

/-- Embedding of the `PRIORITY_ORDER` dict of `config.py` (higher = more
severe); the dict is total on the enum, so the `.get(p, 0)` default is never
taken and the embedding is a total function. -/
def PRIORITY_ORDER : Priority → Nat
  | Priority.debug => 0
  | Priority.informational => 1
  | Priority.notice => 2
  | Priority.warning => 3
  | Priority.error => 4
  | Priority.critical => 5
  | Priority.alert => 6
  | Priority.emergency => 7

/-- Embedding of `PolicyRule` in `config.py`, with the pydantic defaults. -/
structure PolicyRule where
  name : String
  description : Option String := none
  rule_patterns : List String := []
  priority_min : Priority := Priority.warning
  container_patterns : List String := []
  image_patterns : List String := []
  exclude_containers : List String := []
  action : ActionType := ActionType.alert
  webhook_url : Option String := none
  cooldown_seconds : Int := 60
deriving DecidableEq

/-- Embedding of the fields of `EnforcerConfig` (`config.py`) that the
policy pipeline reads. -/
structure EnforcerConfig where
  dry_run : Bool := false
  policies : List PolicyRule := []
  global_webhook_url : Option String := none
  excluded_containers : List String := [("ghost-mole")]
deriving DecidableEq

/-! ## `alert_parser.py`: the alert record -/

/-- Embedding of the `FalcoAlert` dataclass (`alert_parser.py`): the fields
the policy pipeline reads, plus the optional actor/network context.  The
timestamp and the raw `output_fields` map are never read by the pipeline and
are omitted. -/
structure FalcoAlert where
  uuid : String := ""
  rule : String := ""
  priority : String := ""
  output : String := ""
  container_id : Option String := none
  container_name : Option String := none
  container_image : Option String := none
  proc_name : Option String := none
  proc_cmdline : Option String := none
  user_name : Option String := none
  fd_name : Option String := none
  tags : List String := []
deriving DecidableEq

/-! ## Association-list model of the Python dicts -/

/-- Lookup in the association-list model of a Python dict. -/
def assocLookup {β : Type} : List (String × β) → String → Option β
  | [], _ => none
  | (k0, v0) :: rest, k => if k = k0 then some v0 else assocLookup rest k

/-- Python `dict.get(k, default)`. -/
def assocGetD {β : Type} (d : List (String × β)) (k : String) (default : β) : β :=
  (assocLookup d k).getD default

/-- Python `dict[k] = v`: replace in place when the key is present,
append otherwise (insertion order preserved). -/
def assocSet {β : Type} (d : List (String × β)) (k : String) (v : β) :
    List (String × β) :=
  match d with
  | [] => [(k, v)]
  | (k0, v0) :: rest =>
    if k0 = k then (k, v) :: rest else (k0, v0) :: assocSet rest k v

/-- Read of the per-kind executed counter: `defaultdict(int)` lookup. -/
def countGet (d : List (String × Nat)) (k : String) : Nat := assocGetD d k 0

/-- Increment of the per-kind executed counter:
`self.metrics.actions_executed[key] += 1` on a `defaultdict(int)`. -/
def countIncr (d : List (String × Nat)) (k : String) : List (String × Nat) :=
  assocSet d k (countGet d k + 1)

/-! ## `policy_engine.py`: metrics, matching, cooldown, dispatch -/

/-- Embedding of the `PolicyMetrics` dataclass. -/
structure PolicyMetrics where
  alerts_received : Nat := 0
  alerts_matched : Nat := 0
  actions_executed : List (String × Nat) := []
  actions_skipped_cooldown : Nat := 0
  actions_skipped_excluded : Nat := 0
  actions_failed : Nat := 0
deriving DecidableEq

/-- The mutable state of a `PolicyEngine`: metrics plus the cooldown dict
`(container_id + ":" + policy_name) ↦ last_action_time`. -/
structure EngineState where
  metrics : PolicyMetrics := {}
  cooldowns : List (String × Int) := []
deriving DecidableEq

/-- Embedding of `PolicyEngine._is_excluded`: an alert with a falsy container
name is never excluded; otherwise the name is matched against every global
exclusion glob. -/
def isExcluded (cfg : EnforcerConfig) (alert : FalcoAlert) : Bool :=
  if !pyStr alert.container_name then false
  else anyFnmatch (strOpt alert.container_name) cfg.excluded_containers

/-- Effective severity of an alert inside `_matches_policy`:
`Priority(alert.priority.lower())`, degraded to `WARNING` when the
constructor raises `ValueError`. -/
def effectivePriority (s : String) : Priority :=
  (Priority.ofString (pyLower s)).getD Priority.warning

/-- Severity block of `PolicyEngine._matches_policy`: fail when the alert's
order is strictly below the rule's minimum order. -/
def priorityCond (alert : FalcoAlert) (policy : PolicyRule) : Bool :=
  if PRIORITY_ORDER (effectivePriority alert.priority) <
      PRIORITY_ORDER policy.priority_min then false
  else true

/-- Rule-name block of `_matches_policy`: a non-empty pattern list must be
matched by the alert's rule name. -/
def ruleCond (alert : FalcoAlert) (policy : PolicyRule) : Bool :=
  if !policy.rule_patterns.isEmpty &&
      !anyFnmatch alert.rule policy.rule_patterns then false
  else true

/-- Container-name block of `_matches_policy`: the check only runs when the
pattern list is non-empty AND the alert's container name is truthy
(`if policy.container_patterns and alert.container_name:`). -/
def containerCond (alert : FalcoAlert) (policy : PolicyRule) : Bool :=
  if !policy.container_patterns.isEmpty && pyStr alert.container_name &&
      !anyFnmatch (strOpt alert.container_name) policy.container_patterns then
    false
  else true

/-- Image block of `_matches_policy`, symmetric to the container block. -/
def imageCond (alert : FalcoAlert) (policy : PolicyRule) : Bool :=
  if !policy.image_patterns.isEmpty && pyStr alert.container_image &&
      !anyFnmatch (strOpt alert.container_image) policy.image_patterns then
    false
  else true

/-- Per-rule exclusion block of `_matches_policy`: reject when the alert's
truthy container name matches any per-rule exclusion pattern. -/
def ruleExclusionCond (alert : FalcoAlert) (policy : PolicyRule) : Bool :=
  if !policy.exclude_containers.isEmpty && pyStr alert.container_name &&
      anyFnmatch (strOpt alert.container_name) policy.exclude_containers then
    false
  else true

/-- Embedding of `PolicyEngine._matches_policy`: the sequence of
early-`return False` blocks is the conjunction of the five block
conditions, in source order. -/
def matchesPolicy (alert : FalcoAlert) (policy : PolicyRule) : Bool :=
  priorityCond alert policy && ruleCond alert policy &&
    containerCond alert policy && imageCond alert policy &&
    ruleExclusionCond alert policy

/-- Embedding of `PolicyEngine._find_matching_policy`: first rule in
declaration order that matches, else `none`. -/
def findMatchingPolicy (cfg : EnforcerConfig) (alert : FalcoAlert) :
    Option PolicyRule :=
  cfg.policies.find? (fun policy => matchesPolicy alert policy)

/-- Cooldown key `f"{alert.container_id}:{policy.name}"`. -/
def cooldownKey (containerId policyName : String) : String :=
  containerId ++ (":") ++ policyName

/-- Embedding of `PolicyEngine._check_cooldown`.  Returns the boolean
("allowed") together with the possibly-updated cooldown dict; the dict is
updated exactly on the allowed path past the guards (admission time).
`time.time()` is modelled by the exact integer `now`; the dict read uses the
source's `get(key, 0)` default. -/
def checkCooldown (now : Int) (alert : FalcoAlert) (policy : PolicyRule)
    (cooldowns : List (String × Int)) : Bool × List (String × Int) :=
  if !pyStr alert.container_id then (true, cooldowns)
  else if policy.cooldown_seconds ≤ 0 then (true, cooldowns)
  else
    let key := cooldownKey (strOpt alert.container_id) policy.name
    let lastAction := assocGetD cooldowns key 0
    if now - lastAction < policy.cooldown_seconds then (false, cooldowns)
    else (true, assocSet cooldowns key now)

/-- Embedding of `PolicyEngine._execute_action` as a metrics transformer.
`handlers` models `self._actions` together with the behaviour of one handler
invocation: `none` is an unregistered kind (the alert is dropped), a normal
return increments executed or failed, and a raised exception is caught by
the `try/except` and counted as failed (the embedding is total: nothing
propagates). -/
def executeAction (cfg : EnforcerConfig)
    (handlers : ActionType → Option (Except String Bool))
    (policy : PolicyRule) (m : PolicyMetrics) : PolicyMetrics :=
  if cfg.dry_run then
    { m with actions_executed := countIncr m.actions_executed policy.action.value }
  else
    match handlers policy.action with
    | none => m
    | some (Except.ok true) =>
      { m with actions_executed := countIncr m.actions_executed policy.action.value }
    | some (Except.ok false) =>
      { m with actions_failed := m.actions_failed + 1 }
    | some (Except.error _) =>
      { m with actions_failed := m.actions_failed + 1 }

/-- Embedding of `PolicyEngine.process_alert`: count the alert, short-circuit
on exclusion, find the first matching rule, count the match, run the
cooldown gate (which may update the cooldown dict), then dispatch. -/
def processAlert (cfg : EnforcerConfig)
    (handlers : ActionType → Option (Except String Bool))
    (now : Int) (alert : FalcoAlert) (st : EngineState) : EngineState :=
  let m0 := { st.metrics with alerts_received := st.metrics.alerts_received + 1 }
  if isExcluded cfg alert then
    { st with
      metrics :=
        { m0 with
          actions_skipped_excluded := m0.actions_skipped_excluded + 1 } }
  else
    match findMatchingPolicy cfg alert with
    | none => { st with metrics := m0 }
    | some policy =>
      let m1 := { m0 with alerts_matched := m0.alerts_matched + 1 }
      let gate := checkCooldown now alert policy st.cooldowns
      if !gate.1 then
        { metrics :=
            { m1 with
              actions_skipped_cooldown := m1.actions_skipped_cooldown + 1 },
          cooldowns := gate.2 }
      else
        { metrics := executeAction cfg handlers policy m1,
          cooldowns := gate.2 }

/-- The action kinds `PolicyEngine.set_runtime` wires to concrete handlers
(`self._actions = {ActionType.ALERT: ..., ActionType.WEBHOOK: ...}`). -/
def runtimeWiredActions : List ActionType := [ActionType.alert, ActionType.webhook]

/-! ## `runtime/docker_desktop.py` and `actions/quarantine.py` -/

/-- The `for net_name in networks` loop of
`DockerDesktopRuntime.disconnect_network` with its `disconnected`
accumulator: `continue` when an explicit (truthy) network filter does not
name this network, otherwise attempt the detach.  `netOk` says whether
detaching a given network succeeds; `false` models the
`docker.errors.APIError` the inner `except` swallows (which in docker-py
also covers `NotFound` from `networks.get`, a subclass of `APIError`). -/
def disconnectLoop (netOk : String → Bool) (network : Option String) :
    List String → Bool → Bool
  | [], disconnected => disconnected
  | netName :: rest, disconnected =>
    if pyStr network && strOpt network ≠ netName then
      disconnectLoop netOk network rest disconnected
    else if netOk netName then disconnectLoop netOk network rest true
    else disconnectLoop netOk network rest disconnected

/-- Embedding of `DockerDesktopRuntime.disconnect_network`'s body: look the
container up (a miss models `containers.get` raising `NotFound`, caught by
the outer `except`), then run the per-network loop. -/
def disconnectNetwork (containers : List (String × List String))
    (netOk : String → Bool) (containerId : String)
    (network : Option String) : Bool :=
  match assocLookup containers containerId with
  | none => false
  | some networks => disconnectLoop netOk network networks false

/-- Embedding of `QuarantineAction.execute`: fail on a falsy container id,
otherwise report exactly the result of `runtime.disconnect_network`
(called with no network filter). -/
def quarantineExecute (containers : List (String × List String))
    (netOk : String → Bool) (alert : FalcoAlert) : Bool :=
  if !pyStr alert.container_id then false
  else disconnectNetwork containers netOk (strOpt alert.container_id) none

/-! ## Concrete configurations and orders used by the theorems -/

/-- Concrete alert for the C1 counterexample: no container name and no
container image at all. -/
def c1Alert : FalcoAlert :=
  { rule := "Some Rule", priority := "critical" }

/-- Concrete rule for the C1 counterexample: declares both container-name
patterns and image patterns. -/
def c1Policy : PolicyRule :=
  { name := "p1",
    container_patterns := [("web*")],
    image_patterns := [("nginx*")] }

/-- Pointwise order on the metrics record: every counter of the first is at
most the corresponding counter of the second (per-kind executed counts
compared pointwise). -/
def metricsLE (m1 m2 : PolicyMetrics) : Prop :=
  m1.alerts_received ≤ m2.alerts_received ∧
  m1.alerts_matched ≤ m2.alerts_matched ∧
  (∀ k, countGet m1.actions_executed k ≤ countGet m2.actions_executed k) ∧
  m1.actions_skipped_cooldown ≤ m2.actions_skipped_cooldown ∧
  m1.actions_skipped_excluded ≤ m2.actions_skipped_excluded ∧
  m1.actions_failed ≤ m2.actions_failed

/-! ## Helper lemmas about the dict model and `find?` -/

theorem assocLookup_assocSet {β : Type} (d : List (String × β)) (k k' : String)
    (v : β) :
    assocLookup (assocSet d k v) k' = if k' = k then some v else assocLookup d k' := by
  induction d with
  | nil =>
    by_cases h : k' = k <;> simp [assocSet, assocLookup, h]
  | cons hd tl ih =>
    obtain ⟨k0, v0⟩ := hd
    by_cases h0 : k0 = k
    · subst h0
      by_cases h1 : k' = k0 <;> simp [assocSet, assocLookup, h1]
    · by_cases h1 : k' = k0
      · subst h1
        simp [assocSet, assocLookup, h0]
      · simp [assocSet, assocLookup, h0, h1, ih]

theorem countGet_countIncr (d : List (String × Nat)) (k k' : String) :
    countGet (countIncr d k) k' =
      if k' = k then countGet d k' + 1 else countGet d k' := by
  by_cases h : k' = k
  · subst h
    simp [countGet, countIncr, assocGetD, assocLookup_assocSet]
  · simp [countGet, countIncr, assocGetD, assocLookup_assocSet, h]

theorem countGet_le_countIncr (d : List (String × Nat)) (k k' : String) :
    countGet d k' ≤ countGet (countIncr d k) k' := by
  rw [countGet_countIncr]
  by_cases h : k' = k <;> simp [h]

theorem find_first_characterization {α : Type} (f : α → Bool) (l : List α) :
    (l.find? f = none ∧ ∀ a ∈ l, f a = false) ∨
    (∃ i, ∃ hi : i < l.length, l.find? f = some (l.get ⟨i, hi⟩) ∧
      f (l.get ⟨i, hi⟩) = true ∧
      ∀ j, ∀ hj : j < l.length, j < i → f (l.get ⟨j, hj⟩) = false) := by
  induction l with
  | nil => exact Or.inl ⟨rfl, by simp⟩
  | cons a t ih =>
    cases hfa : f a with
    | true =>
      right
      exact ⟨0, by simp, by simp [List.find?, hfa], by simpa using hfa,
        fun j hj hj0 => absurd hj0 (Nat.not_lt_zero j)⟩
    | false =>
      rcases ih with ⟨hnone, hall⟩ | ⟨i, hi, hfind, hmatch, hprior⟩
      · left
        refine ⟨by simp [List.find?, hfa, hnone], ?_⟩
        intro x hx
        rcases List.mem_cons.mp hx with rfl | hx'
        · exact hfa
        · exact hall x hx'
      · right
        refine ⟨i + 1, by simpa using Nat.succ_lt_succ hi, ?_, ?_, ?_⟩
        · simpa [List.find?, hfa] using hfind
        · simpa using hmatch
        · intro j hj hji
          cases j with
          | zero => simpa using hfa
          | succ j0 => simpa using hprior j0 (by omega) (by omega)

theorem pyStr_none : pyStr none = false := rfl

theorem disconnectLoop_none (netOk : String → Bool) (l : List String) (b : Bool) :
    disconnectLoop netOk none l b = (b || l.any netOk) := by
  induction l generalizing b with
  | nil => simp [disconnectLoop]
  | cons n t ih =>
    simp only [disconnectLoop, pyStr_none, Bool.false_and, List.any_cons]
    cases hn : netOk n <;> cases b <;> simp [hn, ih]

/-! ## C1: container-name / image pattern conditions -/

/-- C1 counterexample: the claim says a rule that declares container-name
(resp. image) patterns must fail against an alert that lacks the field; the
code instead skips the check entirely (`if policy.container_patterns and
alert.container_name:`), so this rule matches this field-less alert. -/
theorem c1_counterexample : matchesPolicy c1Alert c1Policy = true := by decide

/-- C1 (amended): if the rule declares container-name patterns and the alert
has a (truthy) container name, at least one pattern must match or the rule
is rejected; if the alert has no container name the container-name condition
is skipped and automatically satisfied even when patterns are declared; a
rule with no patterns is automatically satisfied; and symmetrically for
image patterns against the container image reference. -/
theorem c1_container_image_conditions (alert : FalcoAlert) (policy : PolicyRule) :
    (policy.container_patterns = [] → containerCond alert policy = true) ∧
    (pyStr alert.container_name = false → containerCond alert policy = true) ∧
    (pyStr alert.container_name = true →
      anyFnmatch (strOpt alert.container_name) policy.container_patterns = false →
      policy.container_patterns ≠ [] → matchesPolicy alert policy = false) ∧
    (pyStr alert.container_name = true →
      anyFnmatch (strOpt alert.container_name) policy.container_patterns = true →
      containerCond alert policy = true) ∧
    (policy.image_patterns = [] → imageCond alert policy = true) ∧
    (pyStr alert.container_image = false → imageCond alert policy = true) ∧
    (pyStr alert.container_image = true →
      anyFnmatch (strOpt alert.container_image) policy.image_patterns = false →
      policy.image_patterns ≠ [] → matchesPolicy alert policy = false) ∧
    (pyStr alert.container_image = true →
      anyFnmatch (strOpt alert.container_image) policy.image_patterns = true →
      imageCond alert policy = true) := by
  refine ⟨?_, ?_, ?_, ?_, ?_, ?_, ?_, ?_⟩
  · intro h; simp [containerCond, h]
  · intro h; simp [containerCond, h]
  · intro h1 h2 h3
    have hne : policy.container_patterns.isEmpty = false := by
      simpa [List.isEmpty_iff] using h3
    simp [matchesPolicy, containerCond, h1, h2, hne]
  · intro h1 h2; simp [containerCond, h2]
  · intro h; simp [imageCond, h]
  · intro h; simp [imageCond, h]
  · intro h1 h2 h3
    have hne : policy.image_patterns.isEmpty = false := by
      simpa [List.isEmpty_iff] using h3
    simp [matchesPolicy, imageCond, h1, h2, hne]
  · intro h1 h2; simp [imageCond, h2]

/-- C1 witness: concrete instantiations of the amended statement. -/
theorem c1_container_image_conditions_witness :
    containerCond c1Alert c1Policy = true ∧
    matchesPolicy { c1Alert with container_name := some ("db-1") } c1Policy = false ∧
    imageCond { c1Alert with container_image := some ("nginx:latest") } c1Policy = true :=
  ⟨(c1_container_image_conditions c1Alert c1Policy).2.1 (by decide),
   (c1_container_image_conditions { c1Alert with container_name := some ("db-1") }
      c1Policy).2.2.1 (by decide) (by decide) (by decide),
   (c1_container_image_conditions { c1Alert with container_image := some ("nginx:latest") }
      c1Policy).2.2.2.2.2.2.2 (by decide) (by decide)⟩

/-! ## C2: declared action kinds -/

/-- C2 counterexample: the claim says log-only, outbound-notification,
runtime-kill and runtime-quarantine are all legal values of a rule's action
kind; the `ActionType` enum of `config.py` declares only `"alert"` and
`"webhook"`, so the enum lookup rejects `"kill"` and `"quarantine"`. -/
theorem c2_counterexample :
    ActionType.ofString ("kill") = none ∧
    ActionType.ofString ("quarantine") = none ∧
    ActionType.ofString ("alert") = some ActionType.alert ∧
    ActionType.ofString ("webhook") = some ActionType.webhook := by decide

/-- C2 (amended): the engine declares exactly two action kinds, log-only
(`"alert"`) and outbound-notification (`"webhook"`); every declared kind is
wired to a concrete handler by `set_runtime` and is recovered by the enum
lookup; runtime-kill and runtime-quarantine are not legal values of a rule's
action field in the current build (their handler classes exist but no enum
member names them). -/
theorem c2_action_kinds (a : ActionType) :
    (a = ActionType.alert ∨ a = ActionType.webhook) ∧
    a ∈ runtimeWiredActions ∧
    ActionType.ofString a.value = some a ∧
    ActionType.ofString ("kill") = none ∧
    ActionType.ofString ("quarantine") = none := by
  cases a <;> refine ⟨by decide, by decide, by decide, by decide, by decide⟩

/-! ## C9: quarantine success semantics -/

/-- C9 counterexample: the claim says quarantining an existing target with
zero network attachments surfaces as success; `disconnect_network` returns
its `disconnected` flag, which stays false when the loop body never runs. -/
theorem c9_counterexample :
    disconnectNetwork [(("c1"), [])] (fun _ => true) ("c1") none = false := by
  decide

/-- C9 (amended): the quarantine capability reports success exactly when at
least one network detach call succeeded; it reports failure when the target
is missing; in particular, quarantining an existing target with zero network
attachments surfaces as failure, not success.  `QuarantineAction.execute`
additionally fails on a falsy container id and otherwise reports exactly the
runtime's result. -/
theorem c9_quarantine_semantics (containers : List (String × List String))
    (netOk : String → Bool) (cid : String) (alert : FalcoAlert) :
    (assocLookup containers cid = none →
      disconnectNetwork containers netOk cid none = false) ∧
    (∀ networks, assocLookup containers cid = some networks →
      disconnectNetwork containers netOk cid none = networks.any netOk) ∧
    (assocLookup containers cid = some [] →
      disconnectNetwork containers netOk cid none = false) ∧
    (pyStr alert.container_id = false →
      quarantineExecute containers netOk alert = false) ∧
    (pyStr alert.container_id = true →
      quarantineExecute containers netOk alert =
        disconnectNetwork containers netOk (strOpt alert.container_id) none) := by
  refine ⟨?_, ?_, ?_, ?_, ?_⟩
  · intro h; simp [disconnectNetwork, h]
  · intro networks h
    simp [disconnectNetwork, h, disconnectLoop_none]
  · intro h
    simp [disconnectNetwork, h, disconnectLoop]
  · intro h; simp [quarantineExecute, h]
  · intro h; simp [quarantineExecute, h]

/-- C9 witness: concrete instantiations of the amended statement. -/
theorem c9_quarantine_semantics_witness :
    disconnectNetwork [(("c1"), [("bridge")])] (fun _ => true) ("c1") none =
      List.any [("bridge")] (fun _ => true) ∧
    disconnectNetwork [(("c1"), [("bridge")])] (fun _ => true) ("missing") none = false ∧
    quarantineExecute [(("c1"), [("bridge")])] (fun _ => true) {} = false :=
  ⟨(c9_quarantine_semantics [(("c1"), [("bridge")])] (fun _ => true) ("c1")
      {}).2.1 [("bridge")] (by decide),
   (c9_quarantine_semantics [(("c1"), [("bridge")])] (fun _ => true) ("missing")
      {}).1 (by decide),
   (c9_quarantine_semantics [(("c1"), [("bridge")])] (fun _ => true) ("x")
      {}).2.2.2.1 (by decide)⟩

/-! ## C3: first match wins -/

/-- C3: the matcher returns the first rule in declaration order whose
conditions the alert satisfies, and none when no rule's conditions are
satisfied; in particular, when rules R1 and R2 both match and R1 precedes
R2, the returned rule sits at or before R1's position, so the matcher
returns R1 whenever R1 is the earliest match and never returns the later
R2. -/
theorem c3_first_match_wins (cfg : EnforcerConfig) (alert : FalcoAlert) :
    (findMatchingPolicy cfg alert = none ∧
      ∀ p ∈ cfg.policies, matchesPolicy alert p = false) ∨
    (∃ i, ∃ hi : i < cfg.policies.length,
      findMatchingPolicy cfg alert = some (cfg.policies.get ⟨i, hi⟩) ∧
      matchesPolicy alert (cfg.policies.get ⟨i, hi⟩) = true ∧
      ∀ j, ∀ hj : j < cfg.policies.length, j < i →
        matchesPolicy alert (cfg.policies.get ⟨j, hj⟩) = false) :=
  find_first_characterization (fun p => matchesPolicy alert p) cfg.policies

/-! ## C4: the severity condition -/

/-- C4: the severity condition uses the 8-level total order
debug < informational < notice < warning < error < critical < alert <
emergency; a rule with minimum critical never matches an alert of effective
severity warning; with minimum warning, the severity condition holds exactly
for warning, error, critical, alert and emergency, and the rule rejects
debug, informational and notice; an unparseable severity string degrades
to warning. -/
theorem c4_severity_condition (alert : FalcoAlert) (policy : PolicyRule) :
    (PRIORITY_ORDER Priority.debug < PRIORITY_ORDER Priority.informational ∧
     PRIORITY_ORDER Priority.informational < PRIORITY_ORDER Priority.notice ∧
     PRIORITY_ORDER Priority.notice < PRIORITY_ORDER Priority.warning ∧
     PRIORITY_ORDER Priority.warning < PRIORITY_ORDER Priority.error ∧
     PRIORITY_ORDER Priority.error < PRIORITY_ORDER Priority.critical ∧
     PRIORITY_ORDER Priority.critical < PRIORITY_ORDER Priority.alert ∧
     PRIORITY_ORDER Priority.alert < PRIORITY_ORDER Priority.emergency) ∧
    (effectivePriority alert.priority = Priority.warning →
      policy.priority_min = Priority.critical →
      matchesPolicy alert policy = false) ∧
    (policy.priority_min = Priority.warning →
      (priorityCond alert policy = true ↔
        effectivePriority alert.priority ∈
          [Priority.warning, Priority.error, Priority.critical,
           Priority.alert, Priority.emergency])) ∧
    (policy.priority_min = Priority.warning →
      effectivePriority alert.priority ∈
        [Priority.debug, Priority.informational, Priority.notice] →
      matchesPolicy alert policy = false) ∧
    (Priority.ofString (pyLower alert.priority) = none →
      effectivePriority alert.priority = Priority.warning) := by
  refine ⟨by decide, ?_, ?_, ?_, ?_⟩
  · intro h1 h2
    simp [matchesPolicy, priorityCond, h1, h2, PRIORITY_ORDER]
  · intro hmin
    cases hp : effectivePriority alert.priority <;>
      simp only [priorityCond, hp, hmin, PRIORITY_ORDER] <;> decide
  · intro hmin hmem
    simp only [List.mem_cons, List.not_mem_nil, or_false] at hmem
    rcases hmem with h | h | h <;>
      simp [matchesPolicy, priorityCond, hmin, h, PRIORITY_ORDER]
  · intro h
    simp [effectivePriority, h]

/-- C4 witness: concrete instantiations of the severity condition. -/
theorem c4_severity_condition_witness :
    matchesPolicy { rule := "r", priority := "WARNING" }
      { name := "crit", priority_min := Priority.critical } = false ∧
    (priorityCond { rule := "r", priority := "WARNING" }
        { name := "warn", priority_min := Priority.warning } = true ↔
      effectivePriority ("WARNING") ∈
        [Priority.warning, Priority.error, Priority.critical,
         Priority.alert, Priority.emergency]) ∧
    matchesPolicy { rule := "r", priority := "notice" }
      { name := "warn", priority_min := Priority.warning } = false ∧
    effectivePriority ("garbage") = Priority.warning :=
  ⟨(c4_severity_condition { rule := "r", priority := "WARNING" }
      { name := "crit", priority_min := Priority.critical }).2.1
      (by decide) (by decide),
   (c4_severity_condition { rule := "r", priority := "WARNING" }
      { name := "warn", priority_min := Priority.warning }).2.2.1 (by decide),
   (c4_severity_condition { rule := "r", priority := "notice" }
      { name := "warn", priority_min := Priority.warning }).2.2.2.1
      (by decide) (by decide),
   (c4_severity_condition { rule := "r", priority := "garbage" }
      { name := "warn" }).2.2.2.2 (by decide)⟩

/-! ## C5: the exclusion filter -/

/-- C5: the exclusion filter returns false for every alert without a
container display name; an alert is excluded exactly when its truthy
container name matches some global exclusion glob; and for an excluded
alert the pipeline only increments the received and skipped-excluded
counters — every other counter, the cooldown state, and hence any rule
evaluation or action dispatch are untouched, regardless of severity. -/
theorem c5_exclusion_filter (cfg : EnforcerConfig)
    (handlers : ActionType → Option (Except String Bool)) (now : Int)
    (alert : FalcoAlert) (st : EngineState) :
    (alert.container_name = none → isExcluded cfg alert = false) ∧
    (isExcluded cfg alert = true ↔
      pyStr alert.container_name = true ∧
      anyFnmatch (strOpt alert.container_name) cfg.excluded_containers = true) ∧
    (isExcluded cfg alert = true →
      processAlert cfg handlers now alert st =
        { st with
          metrics :=
            { st.metrics with
              alerts_received := st.metrics.alerts_received + 1,
              actions_skipped_excluded :=
                st.metrics.actions_skipped_excluded + 1 } }) := by
  refine ⟨?_, ?_, ?_⟩
  · intro h
    simp [isExcluded, h, pyStr_none]
  · constructor
    · intro h
      by_cases hp : pyStr alert.container_name = true
      · exact ⟨hp, by simpa [isExcluded, hp] using h⟩
      · rw [Bool.not_eq_true] at hp
        simp [isExcluded, hp] at h
    · rintro ⟨hp, hm⟩
      simp [isExcluded, hp, hm]
  · intro h
    simp [processAlert, h]

/-- C5 witness: a concrete ghost-mole alert against the default exclusion
list. -/
theorem c5_exclusion_filter_witness :
    processAlert {} (fun _ => some (Except.ok true)) 0
      { rule := "r", priority := "critical",
        container_name := some ("ghost-mole") } {} =
      { metrics := { alerts_received := 1, actions_skipped_excluded := 1 } } :=
  (c5_exclusion_filter {} (fun _ => some (Except.ok true)) 0
    { rule := "r", priority := "critical", container_name := some ("ghost-mole") }
    {}).2.2 (by decide)

/-! ## C6: the cooldown gate -/

/-- C6: the cooldown check returns allowed without touching state when the
alert's container id is falsy or the rule's cooldown window is 0; otherwise,
with key = container-id + ":" + rule-name, it returns suppressed without
updating state exactly when `now` minus the last recorded time (0 when
absent) is strictly below the window, and otherwise returns allowed and
records `now` under the key immediately; the recording happens at admission
time, so the resulting cooldown state of a full pipeline run is independent
of the handler outcome (a failing action does not re-arm the cooldown). -/
theorem c6_cooldown_gate (cfg : EnforcerConfig)
    (h1 h2 : ActionType → Option (Except String Bool)) (now : Int)
    (alert : FalcoAlert) (policy : PolicyRule)
    (cooldowns : List (String × Int)) (st : EngineState) :
    (pyStr alert.container_id = false →
      checkCooldown now alert policy cooldowns = (true, cooldowns)) ∧
    (policy.cooldown_seconds = 0 →
      checkCooldown now alert policy cooldowns = (true, cooldowns)) ∧
    (pyStr alert.container_id = true → 0 < policy.cooldown_seconds →
      ((now - assocGetD cooldowns
          (cooldownKey (strOpt alert.container_id) policy.name) 0 <
            policy.cooldown_seconds →
        checkCooldown now alert policy cooldowns = (false, cooldowns)) ∧
       (policy.cooldown_seconds ≤
          now - assocGetD cooldowns
            (cooldownKey (strOpt alert.container_id) policy.name) 0 →
        checkCooldown now alert policy cooldowns =
          (true, assocSet cooldowns
            (cooldownKey (strOpt alert.container_id) policy.name) now)))) ∧
    (processAlert cfg h1 now alert st).cooldowns =
      (processAlert cfg h2 now alert st).cooldowns := by
  refine ⟨?_, ?_, ?_, ?_⟩
  · intro h
    simp [checkCooldown, h]
  · intro h
    simp [checkCooldown, h]
  · intro hid hcd
    have hne : ¬policy.cooldown_seconds ≤ 0 := by omega
    constructor
    · intro hlt
      simp [checkCooldown, hid, hne, hlt]
    · intro hge
      simp [checkCooldown, hid, hne, not_lt.mpr hge]
  · cases hex : isExcluded cfg alert with
    | true => simp [processAlert, hex]
    | false =>
      cases hf : findMatchingPolicy cfg alert with
      | none => simp [processAlert, hex, hf]
      | some p =>
        cases hg : (checkCooldown now alert p st.cooldowns).1 <;>
          simp [processAlert, hex, hf, hg]

/-- C6 witness: the suppressed, allowed-and-recorded, and no-state cases at
concrete inputs (the 10s-apart versus 70s-apart scenario). -/
theorem c6_cooldown_gate_witness :
    checkCooldown 110 { rule := "r", container_id := some ("abc") }
      { name := "p", cooldown_seconds := 60 } [((("abc:p")), 100)] =
      (false, [((("abc:p")), 100)]) ∧
    checkCooldown 170 { rule := "r", container_id := some ("abc") }
      { name := "p", cooldown_seconds := 60 } [((("abc:p")), 100)] =
      (true, assocSet [((("abc:p")), 100)] (cooldownKey ("abc") ("p")) 170) ∧
    checkCooldown 5 { rule := "r" } { name := "p", cooldown_seconds := 60 } [] =
      (true, []) :=
  ⟨((c6_cooldown_gate {} (fun _ => none) (fun _ => none) 110
      { rule := "r", container_id := some ("abc") }
      { name := "p", cooldown_seconds := 60 } [((("abc:p")), 100)] {}).2.2.1
      (by decide) (by decide)).1 (by decide),
   ((c6_cooldown_gate {} (fun _ => none) (fun _ => none) 170
      { rule := "r", container_id := some ("abc") }
      { name := "p", cooldown_seconds := 60 } [((("abc:p")), 100)] {}).2.2.1
      (by decide) (by decide)).2 (by decide),
   (c6_cooldown_gate {} (fun _ => none) (fun _ => none) 5
      { rule := "r" } { name := "p", cooldown_seconds := 60 } [] {}).1
      (by decide)⟩

/-! ## C7: live dispatch outcomes -/

/-- C7: in live mode a handler returning success increments the per-kind
executed counter by one; a returned failure increments the failed counter by
one; a raised exception is absorbed at the dispatcher boundary and also
counted as exactly one failure (the embedding is a total function, so
nothing propagates out of alert processing); an unregistered action kind
leaves the metrics — executed and failed included — entirely unchanged. -/
theorem c7_live_dispatch (cfg : EnforcerConfig)
    (handlers : ActionType → Option (Except String Bool))
    (policy : PolicyRule) (m : PolicyMetrics)
    (hlive : cfg.dry_run = false) :
    (handlers policy.action = some (Except.ok true) →
      executeAction cfg handlers policy m =
        { m with
          actions_executed := countIncr m.actions_executed policy.action.value } ∧
      countGet (executeAction cfg handlers policy m).actions_executed
          policy.action.value =
        countGet m.actions_executed policy.action.value + 1) ∧
    (handlers policy.action = some (Except.ok false) →
      executeAction cfg handlers policy m =
        { m with actions_failed := m.actions_failed + 1 }) ∧
    (∀ e, handlers policy.action = some (Except.error e) →
      executeAction cfg handlers policy m =
        { m with actions_failed := m.actions_failed + 1 }) ∧
    (handlers policy.action = none →
      executeAction cfg handlers policy m = m) := by
  refine ⟨?_, ?_, ?_, ?_⟩
  · intro h
    refine ⟨by simp [executeAction, hlive, h], ?_⟩
    simp [executeAction, hlive, h, countGet_countIncr]
  · intro h
    simp [executeAction, hlive, h]
  · intro e h
    simp [executeAction, hlive, h]
  · intro h
    simp [executeAction, hlive, h]

/-- C7 witness: success, returned failure, raised exception and
unregistered kind at concrete inputs. -/
theorem c7_live_dispatch_witness :
    executeAction {} (fun _ => some (Except.ok true)) { name := "p" } {} =
      { actions_executed := countIncr [] (ActionType.value ActionType.alert) } ∧
    executeAction {} (fun _ => some (Except.ok false)) { name := "p" } {} =
      { actions_failed := 1 } ∧
    executeAction {} (fun _ => some (Except.error ("boom"))) { name := "p" } {} =
      { actions_failed := 1 } ∧
    executeAction {} (fun _ => none) { name := "p" } {} = {} :=
  ⟨((c7_live_dispatch {} (fun _ => some (Except.ok true)) { name := "p" } {}
      (by decide)).1 rfl).1,
   (c7_live_dispatch {} (fun _ => some (Except.ok false)) { name := "p" } {}
      (by decide)).2.1 rfl,
   (c7_live_dispatch {} (fun _ => some (Except.error ("boom"))) { name := "p" } {}
      (by decide)).2.2.1 ("boom") rfl,
   (c7_live_dispatch {} (fun _ => none) { name := "p" } {}
      (by decide)).2.2.2 rfl⟩

/-! ## C8: dry-run dispatch -/

/-- C8: with the process-wide dry-run flag set, dispatch never consults the
handler table (the result is the same for any two handler oracles, so no
real handler is invoked), yet the executed counter for the rule's action
kind is still incremented by exactly one. -/
theorem c8_dry_run_dispatch (cfg : EnforcerConfig)
    (h1 h2 : ActionType → Option (Except String Bool))
    (policy : PolicyRule) (m : PolicyMetrics)
    (hdry : cfg.dry_run = true) :
    executeAction cfg h1 policy m = executeAction cfg h2 policy m ∧
    executeAction cfg h1 policy m =
      { m with
        actions_executed := countIncr m.actions_executed policy.action.value } ∧
    countGet (executeAction cfg h1 policy m).actions_executed
        policy.action.value =
      countGet m.actions_executed policy.action.value + 1 := by
  refine ⟨?_, ?_, ?_⟩ <;> simp [executeAction, hdry, countGet_countIncr]

/-- C8 witness: dry run at a concrete input, with two handler oracles that
would behave differently if consulted. -/
theorem c8_dry_run_dispatch_witness :
    executeAction { dry_run := true } (fun _ => some (Except.error ("boom")))
        { name := "p" } {} =
      executeAction { dry_run := true } (fun _ => none) { name := "p" } {} ∧
    countGet (executeAction { dry_run := true }
        (fun _ => some (Except.error ("boom"))) { name := "p" } {}).actions_executed
        (ActionType.value ActionType.alert) =
      countGet ([] : List (String × Nat)) (ActionType.value ActionType.alert) + 1 :=
  ⟨(c8_dry_run_dispatch { dry_run := true }
      (fun _ => some (Except.error ("boom"))) (fun _ => none) { name := "p" } {}
      (by decide)).1,
   (c8_dry_run_dispatch { dry_run := true }
      (fun _ => some (Except.error ("boom"))) (fun _ => none) { name := "p" } {}
      (by decide)).2.2⟩

/-! ## C10: metric monotonicity -/

theorem metricsLE_trans {m1 m2 m3 : PolicyMetrics}
    (h12 : metricsLE m1 m2) (h23 : metricsLE m2 m3) : metricsLE m1 m3 := by
  obtain ⟨a1, b1, c1, d1, e1, f1⟩ := h12
  obtain ⟨a2, b2, c2, d2, e2, f2⟩ := h23
  exact ⟨le_trans a1 a2, le_trans b1 b2, fun k => le_trans (c1 k) (c2 k),
    le_trans d1 d2, le_trans e1 e2, le_trans f1 f2⟩

theorem metricsLE_executeAction (cfg : EnforcerConfig)
    (handlers : ActionType → Option (Except String Bool))
    (policy : PolicyRule) (m : PolicyMetrics) :
    metricsLE m (executeAction cfg handlers policy m) := by
  by_cases hdry : cfg.dry_run = true
  · simp [executeAction, hdry, metricsLE, countGet_le_countIncr]
  · rw [Bool.not_eq_true] at hdry
    cases hh : handlers policy.action with
    | none => simp [executeAction, hdry, hh, metricsLE]
    | some r =>
      cases r with
      | ok b =>
        cases b <;> simp [executeAction, hdry, hh, metricsLE, countGet_le_countIncr]
      | error e => simp [executeAction, hdry, hh, metricsLE]

theorem executeAction_alerts_received (cfg : EnforcerConfig)
    (handlers : ActionType → Option (Except String Bool))
    (policy : PolicyRule) (m : PolicyMetrics) :
    (executeAction cfg handlers policy m).alerts_received = m.alerts_received := by
  by_cases hdry : cfg.dry_run = true
  · simp [executeAction, hdry]
  · rw [Bool.not_eq_true] at hdry
    cases hh : handlers policy.action with
    | none => simp [executeAction, hdry, hh]
    | some r =>
      cases r with
      | ok b => cases b <;> simp [executeAction, hdry, hh]
      | error e => simp [executeAction, hdry, hh]

/-- C10: every pipeline invocation increments the alerts-received counter by
exactly one, and no metric counter ever decreases across an invocation. -/
theorem c10_metrics_monotone (cfg : EnforcerConfig)
    (handlers : ActionType → Option (Except String Bool)) (now : Int)
    (alert : FalcoAlert) (st : EngineState) :
    (processAlert cfg handlers now alert st).metrics.alerts_received =
      st.metrics.alerts_received + 1 ∧
    metricsLE st.metrics (processAlert cfg handlers now alert st).metrics := by
  cases hex : isExcluded cfg alert with
  | true =>
    exact ⟨by simp [processAlert, hex], by simp [processAlert, hex, metricsLE]⟩
  | false =>
    cases hf : findMatchingPolicy cfg alert with
    | none =>
      exact ⟨by simp [processAlert, hex, hf],
        by simp [processAlert, hex, hf, metricsLE]⟩
    | some p =>
      cases hg : (checkCooldown now alert p st.cooldowns).1 with
      | false =>
        exact ⟨by simp [processAlert, hex, hf, hg],
          by simp [processAlert, hex, hf, hg, metricsLE]⟩
      | true =>
        refine ⟨?_, ?_⟩
        · simp [processAlert, hex, hf, hg, executeAction_alerts_received]
        · have h2 := metricsLE_executeAction cfg handlers p
            { st.metrics with
              alerts_received := st.metrics.alerts_received + 1,
              alerts_matched := st.metrics.alerts_matched + 1 }
          have h1 : metricsLE st.metrics
              { st.metrics with
                alerts_received := st.metrics.alerts_received + 1,
                alerts_matched := st.metrics.alerts_matched + 1 } := by
            simp [metricsLE]
          have h3 := metricsLE_trans h1 h2
          simpa [processAlert, hex, hf, hg] using h3

end GhostEDR
